import Mathlib

/-
Shallow embedding of src/send_eth.py: the module-level retry helper and the
methods of class EtherTransfer that the claims concern.

External effects are modelled by an explicit environment (Env) of oracles:
each remote procedure call of the chain client is a field giving, per
invocation index (1-based), either the returned value (Except.ok) or the
raised exception (Except.error).  Every embedded function additionally
returns a Trace counting the remote calls, log warnings and sleeps it
performed, so that temporal claims (number of broadcasts, number of retries,
delays) become statements about counters.

Machine integers do not occur: Python integers are unbounded, so wei
amounts, gas limits and nonces are modelled by Int.
-/

namespace SendEth

-- Constants, src/send_eth.py lines 41-50.
def DEFAULT_GAS_LIMIT : Int := 21000
def DEFAULT_PRIORITY_FEE_GWEI : Int := 2
def EIP1559_BASEFEE_MULTIPLIER : Int := 2
def RETRY_ATTEMPTS : Nat := 3
def RETRY_DELAY_SEC : Nat := 2

-- web3.to_wei(DEFAULT_PRIORITY_FEE_GWEI, "gwei"), the pure conversion done
-- at lines 176-179: one gwei is 10^9 wei.
def PRIORITY_FEE_WEI : Int := DEFAULT_PRIORITY_FEE_GWEI * 1000000000

/-- Exceptions that can cross the boundaries relevant to the claims:
web3.exceptions.InsufficientFunds, ValueError, RuntimeError (raised by the
retry helper), TypeError (raised when a non-callable is called),
web3.exceptions.TransactionNotFound, a poll timeout, and any other error
coming back from the remote endpoint. -/
inductive Err where
  | insufficientFunds (msg : String)
  | valueError (msg : String)
  | runtimeError (msg : String)
  | typeError (msg : String)
  | transactionNotFound
  | timeoutExpired
  | rpc (msg : String)
  deriving DecidableEq

/-- The block-count parameter of eth.get_transaction_count; the code always
passes the string "pending" (line 201). -/
inductive View where
  | pending
  | latest
  deriving DecidableEq

/-- Counters of the observable effects of one embedded call. -/
structure Trace where
  blockReads : Nat
  priceReads : Nat
  nonceReads : Nat
  chainIdReads : Nat
  estimateCalls : Nat
  balanceReads : Nat
  signCalls : Nat
  submitCalls : Nat
  receiptPolls : Nat
  opCalls : Nat
  warns : Nat
  sleeps : Nat
  sleepSeconds : Nat
  deriving DecidableEq

def Trace.zero : Trace := ⟨0, 0, 0, 0, 0, 0, 0, 0, 0, 0, 0, 0, 0⟩

def Trace.add (a b : Trace) : Trace :=
  ⟨a.blockReads + b.blockReads, a.priceReads + b.priceReads,
   a.nonceReads + b.nonceReads, a.chainIdReads + b.chainIdReads,
   a.estimateCalls + b.estimateCalls, a.balanceReads + b.balanceReads,
   a.signCalls + b.signCalls, a.submitCalls + b.submitCalls,
   a.receiptPolls + b.receiptPolls, a.opCalls + b.opCalls,
   a.warns + b.warns, a.sleeps + b.sleeps, a.sleepSeconds + b.sleepSeconds⟩

-- One-call traces for each kind of observable effect.
def tBlock : Trace := { Trace.zero with blockReads := 1 }
def tPrice : Trace := { Trace.zero with priceReads := 1 }
def tNonce : Trace := { Trace.zero with nonceReads := 1 }
def tChainId : Trace := { Trace.zero with chainIdReads := 1 }
def tEst : Trace := { Trace.zero with estimateCalls := 1 }
def tBalance : Trace := { Trace.zero with balanceReads := 1 }
def tSign : Trace := { Trace.zero with signCalls := 1 }
def tSubmit : Trace := { Trace.zero with submitCalls := 1 }
def tReceipt : Trace := { Trace.zero with receiptPolls := 1 }
def opTrace : Trace := { Trace.zero with opCalls := 1 }
def warnTrace : Trace := { Trace.zero with warns := 1 }

/-- logger.warning followed by time.sleep(RETRY_DELAY_SEC) (lines 84-92). -/
def warnSleepTrace : Trace :=
  { Trace.zero with warns := 1, sleeps := 1, sleepSeconds := RETRY_DELAY_SEC }

/-- The f-string of line 93: label interpolated with RETRY_ATTEMPTS. -/
def retryMsg (label : String) : String :=
  label ++ (" failed after " ++ (toString RETRY_ATTEMPTS ++ " attempts"))

/-- Embeds the loop body of retry (lines 80-93) over the list of remaining
attempt indices.  The argument f gives, per attempt index, the outcome of
calling func there together with the effects of that call.  On a failure
that is not the last attempt the code logs a warning and sleeps
RETRY_DELAY_SEC; on the last failure it logs a warning and, once the loop
ends, raises RuntimeError naming the label. -/
def retryGo {α : Type} (f : Nat → Except Err α × Trace) (label : String) :
    List Nat → Except Err α × Trace
  | [] => (.error (.runtimeError (retryMsg label)), Trace.zero)
  | attempt :: rest =>
    match f attempt with
    | (.ok v, t) => (.ok v, t)
    | (.error _, t) =>
      match rest with
      | [] => (.error (.runtimeError (retryMsg label)), t.add warnTrace)
      | _ :: _ =>
        ((retryGo f label rest).1, (t.add warnSleepTrace).add (retryGo f label rest).2)

/-- retry(func, label, *args) of lines 74-93: the loop runs over attempt
indices range(1, RETRY_ATTEMPTS + 1). -/
def retryRun {α : Type} (f : Nat → Except Err α × Trace) (label : String) :
    Except Err α × Trace :=
  retryGo f label (List.range' 1 RETRY_ATTEMPTS)

/-- retry applied to a bare operation (no per-call effects beyond the call
itself); opCalls counts the invocations of the retried operation. -/
def retryPure {α : Type} (f : Nat → Except Err α) (label : String) :
    Except Err α × Trace :=
  retryRun (fun i => (f i, opTrace)) label

/-- The gas-parameter dictionary returned by get_gas_params: exactly one of
the legacy key set and the dynamic key set is populated. -/
structure GasParams where
  gasPrice : Option Int
  maxFeePerGas : Option Int
  maxPriorityFeePerGas : Option Int
  deriving DecidableEq

/-- The transaction dictionary assembled by build_transaction
(lines 226-233): the fixed keys plus the merged gas parameters. -/
structure Tx where
  chainId : Int
  nonce : Int
  toAddr : String
  value : Int
  gas : Int
  gasPrice : Option Int
  maxFeePerGas : Option Int
  maxPriorityFeePerGas : Option Int
  deriving DecidableEq

/-- The environment of one EtherTransfer instance: the configuration values
read at construction time plus the oracles for every remote call.  Oracles
taking a Nat give the outcome of the i-th invocation of that call. -/
structure Env where
  amountWei : Int
  customGasPriceWei : Option Int
  toAddr : String
  chainId : Except Err Int
  txCount : View → Nat → Except Err Int
  gasPriceRPC : Nat → Except Err Int
  blockBaseFee : Except Err (Option Int)
  estGas : Except Err Int
  balance : Nat → Except Err Int
  signOk : Except Err Unit
  submit : Except Err String
  receipt : Except Err (Int × Int)

/-- Python truthiness of an Optional[int]: None and 0 are falsy. -/
def truthyOptInt : Option Int → Bool
  | none => false
  | some n => n != 0

/-- Python `a or b` for a : Optional[int] and b : int, as used at
lines 243-247: a when it is present and nonzero, else b. -/
def pyOr (a : Option Int) (b : Int) : Int :=
  match a with
  | some n => if n ≠ 0 then n else b
  | none => b

/-- EtherTransfer._parse_custom_gas_price (lines 139-148).  intParse
abstracts the Python built-in int(): some for a successful parse, none for
a ValueError.  A falsy input (None or the empty string) yields None; a
parse failure is logged and ignored; a non-positive parse yields None. -/
def _parse_custom_gas_price (intParse : String → Option Int)
    (value : Option String) : Option Int :=
  match value with
  | none => none
  | some s =>
    if s = "" then none
    else
      match intParse s with
      | none => none
      | some g => if g > 0 then some g else none

/-- The legacy dictionary literal of line 191. -/
def legacyParams (g : Int) : GasParams := ⟨some g, none, none⟩

/-- Calling an int: retry receives the already-evaluated value of the
web3.eth.gas_price property instead of a callable, so func(*args) raises
TypeError on every attempt. -/
def notCallable : Except Err Int := .error (.typeError "int object is not callable")

/-- Line 190: gas_price = retry(self.web3.eth.gas_price, "Fetch legacy gas price").
In web3.py, web3.eth.gas_price is a property: the attribute access in the
argument position performs the RPC once, before retry is entered.  If that
access raises, the exception propagates (the surrounding try block ended at
line 188).  Otherwise its integer result is passed to retry as func, and
every attempt raises TypeError, so retry exhausts without performing any
further RPC. -/
def legacyFetch (env : Env) : Except Err GasParams × Trace :=
  match env.gasPriceRPC 1 with
  | .error e => (.error e, tPrice)
  | .ok _ =>
    (Except.map legacyParams
      (retryRun (fun _ => (notCallable, Trace.zero)) "Fetch legacy gas price").1,
     tPrice.add (retryRun (fun _ => (notCallable, Trace.zero)) "Fetch legacy gas price").2)

/-- EtherTransfer.get_gas_params (lines 158-191).  The custom price wins by
truthiness; otherwise the try block fetches the latest block and, when the
block carries baseFeePerGas, returns the dynamic parameters with
maxFee = baseFee * EIP1559_BASEFEE_MULTIPLIER + priorityFee; any exception
in the try block is debug-logged and, like an absent base fee, falls
through to the legacy line 190. -/
def get_gas_params (env : Env) : Except Err GasParams × Trace :=
  if truthyOptInt env.customGasPriceWei then
    (.ok { gasPrice := env.customGasPriceWei, maxFeePerGas := none,
           maxPriorityFeePerGas := none }, Trace.zero)
  else
    match env.blockBaseFee with
    | .ok (some baseFee) =>
      (.ok { gasPrice := none,
             maxFeePerGas := some (baseFee * EIP1559_BASEFEE_MULTIPLIER + PRIORITY_FEE_WEI),
             maxPriorityFeePerGas := some PRIORITY_FEE_WEI }, tBlock)
    | .ok none => ((legacyFetch env).1, tBlock.add (legacyFetch env).2)
    | .error _ => ((legacyFetch env).1, tBlock.add (legacyFetch env).2)

/-- EtherTransfer.get_nonce (lines 196-202): the transaction count of the
sender on the "pending" view, fetched through retry. -/
def get_nonce (env : Env) : Except Err Int × Trace :=
  retryRun (fun i => (env.txCount View.pending i, tNonce)) "Get nonce"

/-- EtherTransfer.estimate_gas (lines 204-219): simulate the transfer; on
any exception log a warning and fall back to DEFAULT_GAS_LIMIT.  The
return type records that this function cannot fail. -/
def estimate_gas (env : Env) : Int × Trace :=
  match env.estGas with
  | .ok g => (g, tEst)
  | .error _ => (DEFAULT_GAS_LIMIT, tEst.add warnTrace)

/-- EtherTransfer.build_transaction (lines 221-233).  The dictionary values
are evaluated in source order: chain_id (an unretried RPC), get_nonce,
estimate_gas; the gas parameters are then merged in. -/
def build_transaction (env : Env) (value_wei : Int) (gp : GasParams) :
    Except Err Tx × Trace :=
  match env.chainId with
  | .error e => (.error e, tChainId)
  | .ok cid =>
    match (get_nonce env).1 with
    | .error e => (.error e, tChainId.add (get_nonce env).2)
    | .ok nonce =>
      (.ok { chainId := cid, nonce := nonce, toAddr := env.toAddr,
             value := value_wei, gas := (estimate_gas env).1,
             gasPrice := gp.gasPrice, maxFeePerGas := gp.maxFeePerGas,
             maxPriorityFeePerGas := gp.maxPriorityFeePerGas },
       (tChainId.add (get_nonce env).2).add (estimate_gas env).2)

/-- EtherTransfer.estimate_max_cost (lines 236-248): the fee price is
chosen by Python truthiness over maxFeePerGas, then gasPrice, then 0. -/
def estimate_max_cost (tx : Tx) : Int :=
  tx.gas * pyOr tx.maxFeePerGas (pyOr tx.gasPrice 0) + tx.value

/-- The message of the ValueError raised at lines 263-265. -/
def insufficientMsg (required balance : Int) : String :=
  "Insufficient balance. Required=" ++ (toString required ++ (", balance=" ++ toString balance))

/-- The pre-flight balance check of lines 259-265, as a function of the
fetched balance and the assembled transaction. -/
def affordability_guard (balance : Int) (tx : Tx) : Except Err Unit :=
  if balance < estimate_max_cost tx then
    .error (.valueError (insufficientMsg (estimate_max_cost tx) balance))
  else .ok ()

/-- The except clauses of lines 275-279: InsufficientFunds is re-raised as
a ValueError with a fixed message; any other exception is logged and
re-raised unchanged. -/
def classifySendError : Err → Err
  | .insufficientFunds _ => .valueError "Insufficient funds to cover gas."
  | e => e

/-- EtherTransfer.send (lines 253-279).  value_wei is the boundary
conversion web3.to_wei(amount_eth, "ether"), supplied as env.amountWei.
The balance is read by a direct, unretried call (line 259); the guard may
raise; then the try block signs and broadcasts, classifying exceptions. -/
def send (env : Env) : Except Err String × Trace :=
  match (get_gas_params env).1 with
  | .error e => (.error e, (get_gas_params env).2)
  | .ok gp =>
    match (build_transaction env env.amountWei gp).1 with
    | .error e =>
      (.error e, (get_gas_params env).2.add (build_transaction env env.amountWei gp).2)
    | .ok tx =>
      match env.balance 1 with
      | .error e =>
        (.error e,
         ((get_gas_params env).2.add (build_transaction env env.amountWei gp).2).add tBalance)
      | .ok bal =>
        match affordability_guard bal tx with
        | .error e =>
          (.error e,
           ((get_gas_params env).2.add (build_transaction env env.amountWei gp).2).add tBalance)
        | .ok _ =>
          match env.signOk with
          | .error e =>
            (.error (classifySendError e),
             (((get_gas_params env).2.add (build_transaction env env.amountWei gp).2).add tBalance).add tSign)
          | .ok _ =>
            match env.submit with
            | .ok h =>
              (.ok h,
               ((((get_gas_params env).2.add (build_transaction env env.amountWei gp).2).add tBalance).add tSign).add tSubmit)
            | .error e =>
              (.error (classifySendError e),
               ((((get_gas_params env).2.add (build_transaction env env.amountWei gp).2).add tBalance).add tSign).add tSubmit)

/-- EtherTransfer.wait_for_receipt (lines 282-297): every outcome of the
poll, including TransactionNotFound and the timeout, is absorbed with a
logged warning; the return type records that this function cannot fail. -/
def wait_for_receipt (env : Env) : Unit × Trace :=
  match env.receipt with
  | .ok _ => ((), tReceipt)
  | .error _ => ((), tReceipt.add warnTrace)

/-- EtherTransfer.run (lines 300-314): send, then wait_for_receipt, then
the completion log carrying the transaction hash; any exception from send
is caught and turned into exit code 1 (modelled as Except.error ()). -/
def run (env : Env) : Except Unit String × Trace :=
  match (send env).1 with
  | .ok h => (.ok h, (send env).2.add (wait_for_receipt env).2)
  | .error _ => (.error (), (send env).2)

/-- The fee price the specification attributes to a gas-parameter record:
maxFee for a dynamic quote, price for a fixed quote. -/
def GasParams.feePrice (gp : GasParams) : Int :=
  match gp.maxFeePerGas with
  | some m => m
  | none => gp.gasPrice.getD 0


-- Concrete environments used by the witnesses and counterexamples below.

/-- A healthy environment: custom legacy price 5 wei, transfer value
0.01 ether in wei, ample balance, every remote call succeeding. -/
def envBase : Env :=
  { amountWei := 10000000000000000
    customGasPriceWei := some 5
    toAddr := "0xRecipient"
    chainId := .ok 1
    txCount := fun _ _ => .ok 9
    gasPriceRPC := fun _ => .ok 7
    blockBaseFee := .ok none
    estGas := .ok 21000
    balance := fun _ => .ok 1000000000000000000000
    signOk := .ok ()
    submit := .ok "0xhash"
    receipt := .ok (100, 1) }

/-- The gas parameters get_gas_params returns for envBase. -/
def gpW : GasParams := { gasPrice := some 5, maxFeePerGas := none, maxPriorityFeePerGas := none }

/-- The transaction build_transaction assembles for envBase and gpW. -/
def txW : Tx :=
  { chainId := 1, nonce := 9, toAddr := "0xRecipient", value := 10000000000000000,
    gas := 21000, gasPrice := some 5, maxFeePerGas := none, maxPriorityFeePerGas := none }

/-- envBase without a custom price and without a base fee: the legacy path
must be taken. -/
def envLegacy : Env := { envBase with customGasPriceWei := none }

/-- envBase whose nonce read fails on the first attempt and succeeds on the
second. -/
def envNonceFlaky : Env :=
  { envBase with
    txCount := fun _ i => if i = 1 then .error (.rpc "nonce read failed") else .ok 9 }

/-- envBase whose balance read fails on the first invocation and would
succeed on every later one. -/
def envBalanceFail : Env :=
  { envBase with
    balance := fun i => if i = 1 then .error (.rpc "balance read failed")
               else .ok 1000000000000000000000 }

/-- envBase whose broadcast is rejected by the remote with an
insufficient-funds error. -/
def envRemoteA : Env :=
  { envBase with
    submit := .error (.insufficientFunds "insufficient funds for gas * price + value") }

/-- envRemoteA with a different transfer amount (hence different required
and available figures at the remote rejection). -/
def envRemoteB : Env := { envRemoteA with amountWei := 20000000000000000 }

/-- An operation failing exactly once and then succeeding. -/
def fFlaky : Nat → Except Err Int := fun i => if i = 1 then .error (.rpc "read failed") else .ok 42

/-- An operation that always fails. -/
def gDown : Nat → Except Err Int := fun _ => .error (.rpc "endpoint down")

/-- envBase whose balance equals the transfer value exactly. -/
def envZeroHeadroom : Env := { envBase with balance := fun _ => .ok 10000000000000000 }

/-- envBase whose gas simulation fails. -/
def envEstFail : Env := { envBase with estGas := .error (.rpc "execution reverted") }

/-- envBase whose transaction-count oracle answers only on the pending
view; any other view errors. -/
def envViewSensitive : Env :=
  { envBase with
    txCount := fun w i => if w = View.pending then envBase.txCount View.pending i
               else .error (.rpc "non-pending view consulted") }

/-- envBase whose nonce read fails on every attempt. -/
def envNonceDown : Env :=
  { envBase with txCount := fun _ _ => .error (.rpc "nonce service down") }


-- ==================================================================
-- Theorems.  First the componentwise laws of Trace.add, then helper
-- lemmas about the embedded functions, then one theorem per claim.
-- ==================================================================

@[simp] theorem Trace.add_blockReads (a b : Trace) : (a.add b).blockReads = a.blockReads + b.blockReads := rfl

@[simp] theorem Trace.add_priceReads (a b : Trace) : (a.add b).priceReads = a.priceReads + b.priceReads := rfl

@[simp] theorem Trace.add_nonceReads (a b : Trace) : (a.add b).nonceReads = a.nonceReads + b.nonceReads := rfl

@[simp] theorem Trace.add_chainIdReads (a b : Trace) : (a.add b).chainIdReads = a.chainIdReads + b.chainIdReads := rfl

@[simp] theorem Trace.add_estimateCalls (a b : Trace) : (a.add b).estimateCalls = a.estimateCalls + b.estimateCalls := rfl

@[simp] theorem Trace.add_balanceReads (a b : Trace) : (a.add b).balanceReads = a.balanceReads + b.balanceReads := rfl

@[simp] theorem Trace.add_signCalls (a b : Trace) : (a.add b).signCalls = a.signCalls + b.signCalls := rfl

@[simp] theorem Trace.add_submitCalls (a b : Trace) : (a.add b).submitCalls = a.submitCalls + b.submitCalls := rfl

@[simp] theorem Trace.add_receiptPolls (a b : Trace) : (a.add b).receiptPolls = a.receiptPolls + b.receiptPolls := rfl

@[simp] theorem Trace.add_opCalls (a b : Trace) : (a.add b).opCalls = a.opCalls + b.opCalls := rfl

@[simp] theorem Trace.add_warns (a b : Trace) : (a.add b).warns = a.warns + b.warns := rfl

@[simp] theorem Trace.add_sleeps (a b : Trace) : (a.add b).sleeps = a.sleeps + b.sleeps := rfl

@[simp] theorem Trace.add_sleepSeconds (a b : Trace) : (a.add b).sleepSeconds = a.sleepSeconds + b.sleepSeconds := rfl

/-- Unfolding equation for one iteration of the retry loop. -/
theorem retryGo_cons {α : Type} (f : Nat → Except Err α × Trace) (label : String)
    (a : Nat) (rest : List Nat) :
    retryGo f label (a :: rest) =
      match f a with
      | (.ok v, t) => (.ok v, t)
      | (.error _, t) =>
        match rest with
        | [] => (.error (.runtimeError (retryMsg label)), t.add warnTrace)
        | _ :: _ =>
          ((retryGo f label rest).1, (t.add warnSleepTrace).add (retryGo f label rest).2) := rfl

/-- A counter that is zero for every call made by the retried operation and
zero for warnings and sleeps stays zero through the whole retry loop. -/
theorem retryGo_proj_zero {α : Type} (p : Trace → Nat)
    (hadd : ∀ a b : Trace, p (a.add b) = p a + p b)
    (hz : p Trace.zero = 0) (hws : p warnSleepTrace = 0) (hw : p warnTrace = 0)
    (f : Nat → Except Err α × Trace) (label : String)
    (hf : ∀ i, p (f i).2 = 0) :
    ∀ l : List Nat, p (retryGo f label l).2 = 0 := by
  intro l
  induction l with
  | nil => simpa only [retryGo] using hz
  | cons a rest ih =>
    rcases hfa : f a with ⟨r, t⟩
    have hft : p t = 0 := by
      have h0 := hf a
      rw [hfa] at h0
      exact h0
    cases r with
    | ok v =>
      have hstep : retryGo f label (a :: rest) = (.ok v, t) := by
        rw [retryGo_cons, hfa]
      rw [hstep]
      exact hft
    | error e =>
      cases rest with
      | nil =>
        have hstep : retryGo f label [a] =
            (.error (.runtimeError (retryMsg label)), t.add warnTrace) := by
          rw [retryGo_cons, hfa]
        rw [hstep]
        show p (t.add warnTrace) = 0
        rw [hadd]
        omega
      | cons b rest2 =>
        have hstep : retryGo f label (a :: b :: rest2) =
            ((retryGo f label (b :: rest2)).1,
             (t.add warnSleepTrace).add (retryGo f label (b :: rest2)).2) := by
          rw [retryGo_cons, hfa]
        rw [hstep]
        show p ((t.add warnSleepTrace).add (retryGo f label (b :: rest2)).2) = 0
        rw [hadd, hadd]
        omega

/-- The nonce fetch performs no balance read, no price read, no signing
and no broadcast. -/
theorem get_nonce_trace_fields (env : Env) :
    (get_nonce env).2.submitCalls = 0 ∧ (get_nonce env).2.signCalls = 0
      ∧ (get_nonce env).2.balanceReads = 0 ∧ (get_nonce env).2.priceReads = 0 := by
  refine ⟨?_, ?_, ?_, ?_⟩ <;>
    exact retryGo_proj_zero _ (fun a b => rfl) rfl rfl rfl _ _ (fun i => rfl) _

/-- The retry loop entered with the evaluated gas-price property always
exhausts: three warnings, two sleeps, no further remote call. -/
theorem legacyRetry_eq :
    retryRun (fun _ => (notCallable, Trace.zero)) "Fetch legacy gas price" =
      (.error (.runtimeError (retryMsg "Fetch legacy gas price")),
       { Trace.zero with warns := 3, sleeps := 2, sleepSeconds := 4 }) := rfl

/-- The legacy fetch performs at most one price RPC and nothing else. -/
theorem legacyFetch_trace (env : Env) :
    (legacyFetch env).2.submitCalls = 0 ∧ (legacyFetch env).2.signCalls = 0
      ∧ (legacyFetch env).2.balanceReads = 0 ∧ (legacyFetch env).2.nonceReads = 0
      ∧ (legacyFetch env).2.priceReads ≤ 1 := by
  cases hpr : env.gasPriceRPC 1 with
  | error e =>
    simp only [legacyFetch, hpr]
    exact ⟨rfl, rfl, rfl, rfl, by decide⟩
  | ok g =>
    simp only [legacyFetch, hpr]
    exact ⟨rfl, rfl, rfl, rfl, by decide⟩

/-- Fee selection performs at most one price RPC and no balance read, no
nonce read, no signing, no broadcast. -/
theorem get_gas_params_trace (env : Env) :
    (get_gas_params env).2.submitCalls = 0 ∧ (get_gas_params env).2.signCalls = 0
      ∧ (get_gas_params env).2.balanceReads = 0 ∧ (get_gas_params env).2.nonceReads = 0
      ∧ (get_gas_params env).2.priceReads ≤ 1 := by
  obtain ⟨l1, l2, l3, l4, l5⟩ := legacyFetch_trace env
  by_cases ht : truthyOptInt env.customGasPriceWei
  · simp only [get_gas_params, if_pos ht]
    exact ⟨rfl, rfl, rfl, rfl, by decide⟩
  · cases hb : env.blockBaseFee with
    | ok ob =>
      cases ob with
      | some bf =>
        simp only [get_gas_params, if_neg ht, hb]
        exact ⟨rfl, rfl, rfl, rfl, by decide⟩
      | none =>
        simp only [get_gas_params, if_neg ht, hb, Trace.add_submitCalls, Trace.add_signCalls,
          Trace.add_balanceReads, Trace.add_nonceReads, Trace.add_priceReads]
        refine ⟨?_, ?_, ?_, ?_, ?_⟩
        all_goals simp [tBlock, Trace.zero, l1, l2, l3, l4]
        all_goals omega
    | error e =>
      simp only [get_gas_params, if_neg ht, hb, Trace.add_submitCalls, Trace.add_signCalls,
        Trace.add_balanceReads, Trace.add_nonceReads, Trace.add_priceReads]
      refine ⟨?_, ?_, ?_, ?_, ?_⟩
      all_goals simp [tBlock, Trace.zero, l1, l2, l3, l4]
      all_goals omega

/-- The gas estimate performs no balance read, price read, signing or
broadcast. -/
theorem estimate_gas_trace (env : Env) :
    (estimate_gas env).2.submitCalls = 0 ∧ (estimate_gas env).2.signCalls = 0
      ∧ (estimate_gas env).2.balanceReads = 0 ∧ (estimate_gas env).2.priceReads = 0 := by
  cases hg : env.estGas with
  | ok g =>
    simp only [estimate_gas, hg]
    exact ⟨rfl, rfl, rfl, rfl⟩
  | error e =>
    simp only [estimate_gas, hg]
    exact ⟨rfl, rfl, rfl, rfl⟩

/-- Building the transaction performs no balance read, price read, signing
or broadcast. -/
theorem build_trace (env : Env) (v : Int) (gp : GasParams) :
    (build_transaction env v gp).2.submitCalls = 0
      ∧ (build_transaction env v gp).2.signCalls = 0
      ∧ (build_transaction env v gp).2.balanceReads = 0
      ∧ (build_transaction env v gp).2.priceReads = 0 := by
  obtain ⟨n1, n2, n3, n4⟩ := get_nonce_trace_fields env
  obtain ⟨e1, e2, e3, e4⟩ := estimate_gas_trace env
  cases hc : env.chainId with
  | error e =>
    simp only [build_transaction, hc]
    exact ⟨rfl, rfl, rfl, rfl⟩
  | ok cid =>
    cases hn : (get_nonce env).1 with
    | error e =>
      simp only [build_transaction, hc, hn, Trace.add_submitCalls, Trace.add_signCalls,
        Trace.add_balanceReads, Trace.add_priceReads]
      refine ⟨?_, ?_, ?_, ?_⟩
      all_goals simp [tChainId, Trace.zero, n1, n2, n3, n4]
    | ok n =>
      simp only [build_transaction, hc, hn, Trace.add_submitCalls, Trace.add_signCalls,
        Trace.add_balanceReads, Trace.add_priceReads]
      refine ⟨?_, ?_, ?_, ?_⟩
      all_goals simp [tChainId, Trace.zero, n1, n2, n3, n4, e1, e2, e3, e4]

/-- Every successful fee selection is either legacy-shaped or
dynamic-shaped; never both key sets at once. -/
theorem get_gas_params_ok_shape (env : Env) (gp : GasParams)
    (h : (get_gas_params env).1 = .ok gp) :
    gp.maxFeePerGas = none ∨ gp.gasPrice = none := by
  by_cases ht : truthyOptInt env.customGasPriceWei
  · left
    simp only [get_gas_params, if_pos ht] at h
    injection h with h2
    rw [← h2]
  · cases hb : env.blockBaseFee with
    | ok ob =>
      cases ob with
      | some bf =>
        right
        simp only [get_gas_params, if_neg ht, hb] at h
        injection h with h2
        rw [← h2]
      | none =>
        simp only [get_gas_params, if_neg ht, hb] at h
        cases hpr : env.gasPriceRPC 1 with
        | error e =>
          simp only [legacyFetch, hpr] at h
          cases h
        | ok g =>
          simp only [legacyFetch, hpr] at h
          rw [legacyRetry_eq] at h
          simp only [Except.map] at h
          cases h
    | error e =>
      simp only [get_gas_params, if_neg ht, hb] at h
      cases hpr : env.gasPriceRPC 1 with
      | error e2 =>
        simp only [legacyFetch, hpr] at h
        cases h
      | ok g =>
        simp only [legacyFetch, hpr] at h
        rw [legacyRetry_eq] at h
        simp only [Except.map] at h
        cases h

/-- A successfully built transaction carries the requested value, the
estimated gas and exactly the selected fee fields. -/
theorem build_ok_fields (env : Env) (v : Int) (gp : GasParams) (tx : Tx)
    (h : (build_transaction env v gp).1 = .ok tx) :
    tx.value = v ∧ tx.gas = (estimate_gas env).1
      ∧ tx.gasPrice = gp.gasPrice ∧ tx.maxFeePerGas = gp.maxFeePerGas
      ∧ tx.maxPriorityFeePerGas = gp.maxPriorityFeePerGas := by
  cases hc : env.chainId with
  | error e =>
    simp only [build_transaction, hc] at h
    cases h
  | ok cid =>
    cases hn : (get_nonce env).1 with
    | error e =>
      simp only [build_transaction, hc, hn] at h
      cases h
    | ok n =>
      simp only [build_transaction, hc, hn] at h
      injection h with h2
      rw [← h2]
      exact ⟨rfl, rfl, rfl, rfl, rfl⟩

/-- On a record with at most one fee key populated, the truthiness chain of
estimate_max_cost computes exactly the fee price of the quote. -/
theorem pyOr_feePrice (gp : GasParams)
    (h : gp.maxFeePerGas = none ∨ gp.gasPrice = none) :
    pyOr gp.maxFeePerGas (pyOr gp.gasPrice 0) = gp.feePrice := by
  rcases h with h | h
  · rw [h]
    cases hg : gp.gasPrice with
    | none => simp [pyOr, GasParams.feePrice, h, hg]
    | some p =>
      by_cases hp : p = 0
      · simp [pyOr, GasParams.feePrice, h, hg, hp]
      · simp [pyOr, GasParams.feePrice, h, hg, hp]
  · cases hm : gp.maxFeePerGas with
    | none => simp [pyOr, GasParams.feePrice, hm, h]
    | some m =>
      by_cases hm0 : m = 0
      · simp [pyOr, GasParams.feePrice, hm, h, hm0]
      · simp [pyOr, GasParams.feePrice, hm, h, hm0]

/-- For every transaction assembled from a selected fee quote, the
worst-case cost is gas limit times fee price plus value. -/
theorem assembled_required (env : Env) (v : Int) (gp : GasParams) (tx : Tx)
    (hgp : (get_gas_params env).1 = .ok gp)
    (htx : (build_transaction env v gp).1 = .ok tx) :
    estimate_max_cost tx = tx.gas * gp.feePrice + tx.value := by
  obtain ⟨-, -, hgpr, hmax, -⟩ := build_ok_fields env v gp tx htx
  have hs := get_gas_params_ok_shape env gp hgp
  unfold estimate_max_cost
  rw [hgpr, hmax, pyOr_feePrice gp hs]

/-- In every execution of send, the broadcast is invoked at most once, the
balance is read at most once, and the suggested-price RPC runs at most
once. -/
theorem send_trace_bounds (env : Env) :
    (send env).2.submitCalls ≤ 1 ∧ (send env).2.balanceReads ≤ 1
      ∧ (send env).2.priceReads ≤ 1 := by
  obtain ⟨g1, g2, g3, g4, g5⟩ := get_gas_params_trace env
  cases hgp : (get_gas_params env).1 with
  | error e =>
    simp only [send, hgp]
    omega
  | ok gp =>
    obtain ⟨b1, b2, b3, b4⟩ := build_trace env env.amountWei gp
    cases htx : (build_transaction env env.amountWei gp).1 with
    | error e =>
      simp only [send, hgp, htx, Trace.add_submitCalls, Trace.add_balanceReads,
        Trace.add_priceReads]
      omega
    | ok tx =>
      cases hbal : env.balance 1 with
      | error e =>
        simp only [send, hgp, htx, hbal, Trace.add_submitCalls, Trace.add_balanceReads,
          Trace.add_priceReads]
        simp [tBalance, Trace.zero]
        omega
      | ok bal =>
        cases hgd : affordability_guard bal tx with
        | error e =>
          simp only [send, hgp, htx, hbal, hgd, Trace.add_submitCalls, Trace.add_balanceReads,
            Trace.add_priceReads]
          simp [tBalance, Trace.zero]
          omega
        | ok u =>
          cases hs : env.signOk with
          | error e2 =>
            simp only [send, hgp, htx, hbal, hgd, hs, Trace.add_submitCalls,
              Trace.add_balanceReads, Trace.add_priceReads]
            simp [tBalance, tSign, Trace.zero]
            omega
          | ok u2 =>
            cases hsub : env.submit with
            | ok hh =>
              simp only [send, hgp, htx, hbal, hgd, hs, hsub, Trace.add_submitCalls,
                Trace.add_balanceReads, Trace.add_priceReads]
              simp [tBalance, tSign, tSubmit, Trace.zero]
              omega
            | error e3 =>
              simp only [send, hgp, htx, hbal, hgd, hs, hsub, Trace.add_submitCalls,
                Trace.add_balanceReads, Trace.add_priceReads]
              simp [tBalance, tSign, tSubmit, Trace.zero]
              omega


-- ==================================================================
-- Claim theorems.
-- ==================================================================

/-- C1: for every transaction assembled by build_transaction from a fee
quote selected by get_gas_params, the required amount is computed exactly
as gasLimit * feePrice + value, where feePrice is maxFee for a dynamic
quote and price for a fixed quote; whenever balance < required the guard
fails with a ValueError carrying that required value and the available
balance, and whenever balance >= required it succeeds. -/
theorem c1_affordability_guard (env : Env) (gp : GasParams) (tx : Tx) (bal1 bal2 : Int)
    (hgp : (get_gas_params env).1 = .ok gp)
    (htx : (build_transaction env env.amountWei gp).1 = .ok tx)
    (h1 : bal1 < tx.gas * gp.feePrice + tx.value)
    (h2 : tx.gas * gp.feePrice + tx.value ≤ bal2) :
    estimate_max_cost tx = tx.gas * gp.feePrice + tx.value
    ∧ affordability_guard bal1 tx =
        .error (.valueError (insufficientMsg (tx.gas * gp.feePrice + tx.value) bal1))
    ∧ affordability_guard bal2 tx = .ok () := by
  have hreq := assembled_required env env.amountWei gp tx hgp htx
  refine ⟨hreq, ?_, ?_⟩
  · unfold affordability_guard
    rw [hreq, if_pos h1]
  · unfold affordability_guard
    rw [hreq, if_neg (not_lt.mpr h2)]

/-- Witness for C1 at the concrete fixed-price environment envBase:
required is 21000 * 5 + 10^16; balance 0 is rejected with the message
carrying required and balance, balance 10^21 passes. -/
theorem c1_affordability_guard_witness :
    estimate_max_cost txW = txW.gas * gpW.feePrice + txW.value
    ∧ affordability_guard 0 txW =
        .error (.valueError (insufficientMsg (txW.gas * gpW.feePrice + txW.value) 0))
    ∧ affordability_guard 1000000000000000000000 txW = .ok () :=
  c1_affordability_guard envBase gpW txW 0 1000000000000000000000 rfl rfl
    (by decide) (by decide)

/-- C2: evaluation of the legacy fee path at the failing input (no custom
price configured, latest block without baseFeePerGas, suggested-price RPC
answering 7 wei).  The code performs the price RPC once while evaluating
the web3.eth.gas_price property, hands its integer result to retry as the
function, and every retry attempt raises TypeError, so get_gas_params
raises RuntimeError instead of returning the legacy quote Fixed 7 that the
claim (and the docstring of get_gas_params) promises. -/
theorem c2_legacy_path_divergence :
    _parse_custom_gas_price String.toInt? none = none
    ∧ envLegacy.customGasPriceWei = none
    ∧ envLegacy.blockBaseFee = .ok none
    ∧ envLegacy.gasPriceRPC 1 = .ok 7
    ∧ (get_gas_params envLegacy).1 =
        .error (.runtimeError "Fetch legacy gas price failed after 3 attempts")
    ∧ (get_gas_params envLegacy).1 ≠ .ok (legacyParams 7)
    ∧ (get_gas_params envLegacy).2.priceReads = 1
    ∧ (get_gas_params envLegacy).2.warns = 3
    ∧ (get_gas_params envLegacy).2.sleeps = 2 := by
  refine ⟨rfl, rfl, rfl, rfl, rfl, ?_, rfl, rfl, rfl⟩
  intro hcontra
  exact Except.noConfusion hcontra

/-- C3 (amended): in every execution of send the broadcast is invoked at
most once and the balance is read at most once (it is not wrapped in the
retry executor), the suggested-price RPC runs at most once (the retry
executor receives its already-evaluated value, not the callable), and the
nonce read is effectively retried: one failure followed by a success still
yields the nonce, with two nonce RPCs in the trace. -/
theorem c3_retry_scope (env env2 : Env) (e : Err) (n : Int)
    (h1 : env2.txCount View.pending 1 = .error e)
    (h2 : env2.txCount View.pending 2 = .ok n) :
    (send env).2.submitCalls ≤ 1
    ∧ (send env).2.balanceReads ≤ 1
    ∧ (send env).2.priceReads ≤ 1
    ∧ (get_nonce env2).1 = .ok n
    ∧ (get_nonce env2).2.nonceReads = 2 := by
  obtain ⟨s1, s2, s3⟩ := send_trace_bounds env
  have hl : List.range' 1 RETRY_ATTEMPTS = [1, 2, 3] := rfl
  have hval : get_nonce env2 = (.ok n, (tNonce.add warnSleepTrace).add tNonce) := by
    simp only [get_nonce, retryRun]
    rw [hl]
    simp only [retryGo, h1, h2]
  rw [hval]
  exact ⟨s1, s2, s3, rfl, rfl⟩

/-- Witness for C3 at envBase and at an environment whose nonce read fails
once and then succeeds. -/
theorem c3_retry_scope_witness :
    (send envBase).2.submitCalls ≤ 1
    ∧ (send envBase).2.balanceReads ≤ 1
    ∧ (send envBase).2.priceReads ≤ 1
    ∧ (get_nonce envNonceFlaky).1 = .ok 9
    ∧ (get_nonce envNonceFlaky).2.nonceReads = 2 :=
  c3_retry_scope envBase envNonceFlaky (.rpc "nonce read failed") 9 rfl rfl

/-- C3 counterexample: the balance read is not behind the retry executor.
In envBalanceFail the balance RPC fails on its first invocation and would
succeed on every later one; send nevertheless fails with that very error
after exactly one balance read, no warning and no sleep, whereas a retried
read would have recovered. -/
theorem c3_balance_not_retried :
    (send envBalanceFail).1 = .error (.rpc "balance read failed")
    ∧ (send envBalanceFail).2.balanceReads = 1
    ∧ (send envBalanceFail).2.warns = 0
    ∧ (send envBalanceFail).2.sleeps = 0
    ∧ envBalanceFail.balance 2 = .ok 1000000000000000000000 :=
  ⟨rfl, rfl, rfl, rfl, rfl⟩

/-- C4 (amended): when the remote broadcast is rejected with an
insufficient-funds-class error, send terminates by raising a ValueError
with the fixed message "Insufficient funds to cover gas." after exactly
one broadcast; unlike the pre-flight guard error, this message does not
carry the required and available amounts. -/
theorem c4_remote_insufficient (env : Env) (gp : GasParams) (tx : Tx) (bal : Int) (m : String)
    (hgp : (get_gas_params env).1 = .ok gp)
    (htx : (build_transaction env env.amountWei gp).1 = .ok tx)
    (hbal : env.balance 1 = .ok bal)
    (hgd : affordability_guard bal tx = .ok ())
    (hsg : env.signOk = .ok ())
    (hsub : env.submit = .error (.insufficientFunds m)) :
    (send env).1 = .error (.valueError "Insufficient funds to cover gas.")
    ∧ (send env).2.submitCalls = 1 := by
  obtain ⟨g1, g2, g3, g4, g5⟩ := get_gas_params_trace env
  obtain ⟨b1, b2, b3, b4⟩ := build_trace env env.amountWei gp
  constructor
  · simp only [send, hgp, htx, hbal, hgd, hsg, hsub, classifySendError]
  · simp only [send, hgp, htx, hbal, hgd, hsg, hsub, Trace.add_submitCalls]
    simp [tBalance, tSign, tSubmit, Trace.zero, g1, b1]

/-- Witness for C4 at envRemoteA, whose broadcast is rejected with an
insufficient-funds error. -/
theorem c4_remote_insufficient_witness :
    (send envRemoteA).1 = .error (.valueError "Insufficient funds to cover gas.")
    ∧ (send envRemoteA).2.submitCalls = 1 :=
  c4_remote_insufficient envRemoteA gpW txW 1000000000000000000000
    "insufficient funds for gas * price + value" rfl rfl rfl rfl rfl rfl

/-- C4 counterexample: the re-surfaced error does not have the same
user-visible shape as the pre-flight guard failure.  Two runs whose
required amounts differ produce the identical fixed message, and that
message differs from the guard message built from the amounts of the
first run. -/
theorem c4_shape_counterexample :
    (send envRemoteA).1 = .error (.valueError "Insufficient funds to cover gas.")
    ∧ (send envRemoteB).1 = .error (.valueError "Insufficient funds to cover gas.")
    ∧ envRemoteA.amountWei ≠ envRemoteB.amountWei
    ∧ insufficientMsg 10000000000105000 1000000000000000000000
        ≠ insufficientMsg 20000000000105000 1000000000000000000000
    ∧ Err.valueError "Insufficient funds to cover gas."
        ≠ Err.valueError (insufficientMsg 10000000000105000 1000000000000000000000) := by
  refine ⟨rfl, rfl, ?_, ?_, ?_⟩ <;> decide

/-- C5: an operation failing exactly k < RETRY_ATTEMPTS times and then
succeeding makes retry return the success value after logging k warnings
(and k delays); an operation that always fails makes retry raise a
RuntimeError naming the operation after exactly RETRY_ATTEMPTS tries,
RETRY_ATTEMPTS warnings and RETRY_ATTEMPTS - 1 delays of RETRY_DELAY_SEC
time-units each. -/
theorem c5_retry_executor (f g : Nat → Except Err Int) (label : String) (k : Nat) (v : Int)
    (hk : k < RETRY_ATTEMPTS)
    (hfail : ∀ i, 1 ≤ i → i ≤ k → ∃ e, f i = .error e)
    (hsucc : f (k + 1) = .ok v)
    (hg : ∀ i, ∃ e, g i = .error e) :
    ((retryPure f label).1 = .ok v
      ∧ (retryPure f label).2.warns = k
      ∧ (retryPure f label).2.sleeps = k
      ∧ (retryPure f label).2.opCalls = k + 1)
    ∧ ((retryPure g label).1 = .error (.runtimeError (retryMsg label))
      ∧ retryMsg label = label ++ " failed after 3 attempts"
      ∧ (retryPure g label).2.opCalls = RETRY_ATTEMPTS
      ∧ (retryPure g label).2.warns = RETRY_ATTEMPTS
      ∧ (retryPure g label).2.sleeps = RETRY_ATTEMPTS - 1
      ∧ (retryPure g label).2.sleepSeconds = (RETRY_ATTEMPTS - 1) * RETRY_DELAY_SEC) := by
  have hl : List.range' 1 RETRY_ATTEMPTS = [1, 2, 3] := rfl
  constructor
  · have hk3 : k < 3 := hk
    interval_cases k
    · have hs1 : f 1 = .ok v := hsucc
      have hval : retryPure f label = (.ok v, opTrace) := by
        simp only [retryPure, retryRun]
        rw [hl]
        simp only [retryGo, hs1]
      rw [hval]
      exact ⟨rfl, rfl, rfl, rfl⟩
    · obtain ⟨e1, he1⟩ := hfail 1 (by omega) (by omega)
      have hs2 : f 2 = .ok v := hsucc
      have hval : retryPure f label = (.ok v, (opTrace.add warnSleepTrace).add opTrace) := by
        simp only [retryPure, retryRun]
        rw [hl]
        simp only [retryGo, he1, hs2]
      rw [hval]
      exact ⟨rfl, rfl, rfl, rfl⟩
    · obtain ⟨e1, he1⟩ := hfail 1 (by omega) (by omega)
      obtain ⟨e2, he2⟩ := hfail 2 (by omega) (by omega)
      have hs3 : f 3 = .ok v := hsucc
      have hval : retryPure f label =
          (.ok v, (opTrace.add warnSleepTrace).add ((opTrace.add warnSleepTrace).add opTrace)) := by
        simp only [retryPure, retryRun]
        rw [hl]
        simp only [retryGo, he1, he2, hs3]
      rw [hval]
      exact ⟨rfl, rfl, rfl, rfl⟩
  · obtain ⟨e1, he1⟩ := hg 1
    obtain ⟨e2, he2⟩ := hg 2
    obtain ⟨e3, he3⟩ := hg 3
    have hval : retryPure g label =
        (.error (.runtimeError (retryMsg label)),
         (opTrace.add warnSleepTrace).add
           ((opTrace.add warnSleepTrace).add (opTrace.add warnTrace))) := by
      simp only [retryPure, retryRun]
      rw [hl]
      simp only [retryGo, he1, he2, he3]
    rw [hval]
    exact ⟨rfl, rfl, rfl, rfl, rfl, rfl⟩

/-- Witness for C5: an operation that fails once and then returns 42, and
an operation that always fails, both labelled "Get nonce". -/
theorem c5_retry_executor_witness :
    ((retryPure fFlaky "Get nonce").1 = .ok 42
      ∧ (retryPure fFlaky "Get nonce").2.warns = 1
      ∧ (retryPure fFlaky "Get nonce").2.sleeps = 1
      ∧ (retryPure fFlaky "Get nonce").2.opCalls = 1 + 1)
    ∧ ((retryPure gDown "Get nonce").1 = .error (.runtimeError (retryMsg "Get nonce"))
      ∧ retryMsg "Get nonce" = "Get nonce" ++ " failed after 3 attempts"
      ∧ (retryPure gDown "Get nonce").2.opCalls = RETRY_ATTEMPTS
      ∧ (retryPure gDown "Get nonce").2.warns = RETRY_ATTEMPTS
      ∧ (retryPure gDown "Get nonce").2.sleeps = RETRY_ATTEMPTS - 1
      ∧ (retryPure gDown "Get nonce").2.sleepSeconds = (RETRY_ATTEMPTS - 1) * RETRY_DELAY_SEC) :=
  c5_retry_executor fFlaky gDown "Get nonce" 1 42 (by decide)
    (by
      intro i hi1 hi2
      have hi : i = 1 := by omega
      subst hi
      exact ⟨.rpc "read failed", rfl⟩)
    rfl
    (fun _ => ⟨.rpc "endpoint down", rfl⟩)

/-- C6: when the fetched balance equals the transfer value exactly and the
worst-case fee of the assembled transaction is positive, send raises the
insufficient-balance ValueError and neither signing nor broadcast is ever
invoked in that execution. -/
theorem c6_zero_headroom (env : Env) (gp : GasParams) (tx : Tx)
    (hgp : (get_gas_params env).1 = .ok gp)
    (htx : (build_transaction env env.amountWei gp).1 = .ok tx)
    (hbal : env.balance 1 = .ok env.amountWei)
    (hfee : 0 < tx.gas * gp.feePrice) :
    (send env).1 = .error (.valueError (insufficientMsg (estimate_max_cost tx) env.amountWei))
    ∧ (send env).2.signCalls = 0
    ∧ (send env).2.submitCalls = 0 := by
  have hreq := assembled_required env env.amountWei gp tx hgp htx
  obtain ⟨hv, -, -, -, -⟩ := build_ok_fields env env.amountWei gp tx htx
  have hlt : env.amountWei < estimate_max_cost tx := by
    rw [hreq, hv]
    omega
  have hgd : affordability_guard env.amountWei tx =
      .error (.valueError (insufficientMsg (estimate_max_cost tx) env.amountWei)) := by
    unfold affordability_guard
    rw [if_pos hlt]
  obtain ⟨g1, g2, g3, g4, g5⟩ := get_gas_params_trace env
  obtain ⟨b1, b2, b3, b4⟩ := build_trace env env.amountWei gp
  refine ⟨?_, ?_, ?_⟩
  · simp only [send, hgp, htx, hbal, hgd]
  · simp only [send, hgp, htx, hbal, hgd, Trace.add_signCalls]
    simp [tBalance, Trace.zero, g2, b2]
  · simp only [send, hgp, htx, hbal, hgd, Trace.add_submitCalls]
    simp [tBalance, Trace.zero, g1, b1]

/-- Witness for C6 at an environment whose balance equals the transfer
value of 10^16 wei exactly. -/
theorem c6_zero_headroom_witness :
    (send envZeroHeadroom).1 =
      .error (.valueError (insufficientMsg (estimate_max_cost txW) 10000000000000000))
    ∧ (send envZeroHeadroom).2.signCalls = 0
    ∧ (send envZeroHeadroom).2.submitCalls = 0 :=
  c6_zero_headroom envZeroHeadroom gpW txW rfl rfl rfl (by decide)

/-- C7: whenever the execution-unit simulation fails, estimate_gas returns
the fixed standard limit of 21000 units with a logged warning, the failure
never surfaces, and the build still succeeds with gas 21000 (given the
chain id and nonce reads succeed). -/
theorem c7_gas_estimate_fallback (env : Env) (e : Err) (cid n : Int) (gp : GasParams)
    (he : env.estGas = .error e)
    (hcid : env.chainId = .ok cid)
    (hn : (get_nonce env).1 = .ok n) :
    (estimate_gas env).1 = DEFAULT_GAS_LIMIT
    ∧ (estimate_gas env).2.warns = 1
    ∧ (build_transaction env env.amountWei gp).1 =
        .ok { chainId := cid, nonce := n, toAddr := env.toAddr, value := env.amountWei,
              gas := DEFAULT_GAS_LIMIT, gasPrice := gp.gasPrice,
              maxFeePerGas := gp.maxFeePerGas,
              maxPriorityFeePerGas := gp.maxPriorityFeePerGas } := by
  have hval : estimate_gas env = (DEFAULT_GAS_LIMIT, tEst.add warnTrace) := by
    simp only [estimate_gas, he]
  refine ⟨?_, ?_, ?_⟩
  · rw [hval]
  · rw [hval]
    decide
  · simp only [build_transaction, hcid, hn, hval]

/-- Witness for C7 at an environment whose gas simulation fails. -/
theorem c7_gas_estimate_fallback_witness :
    (estimate_gas envEstFail).1 = DEFAULT_GAS_LIMIT
    ∧ (estimate_gas envEstFail).2.warns = 1
    ∧ (build_transaction envEstFail envEstFail.amountWei gpW).1 =
        .ok { chainId := 1, nonce := 9, toAddr := envEstFail.toAddr,
              value := envEstFail.amountWei, gas := DEFAULT_GAS_LIMIT,
              gasPrice := gpW.gasPrice, maxFeePerGas := gpW.maxFeePerGas,
              maxPriorityFeePerGas := gpW.maxPriorityFeePerGas } :=
  c7_gas_estimate_fallback envEstFail (.rpc "execution reverted") 1 9 gpW rfl rfl rfl

/-- C8: once send has succeeded with a transaction hash, run completes
successfully with that hash whatever the receipt poll does: the same
environment with its receipt oracle replaced by any outcome (not found,
timeout, any other failure) still yields the hash. -/
theorem c8_confirmation_nonfatal (env : Env) (h : String) (r : Except Err (Int × Int))
    (hs : (send env).1 = .ok h) :
    (run env).1 = .ok h ∧ (run { env with receipt := r }).1 = .ok h := by
  have hs2 : (send { env with receipt := r }).1 = .ok h := hs
  constructor
  · simp only [run, hs]
  · simp only [run, hs2]

/-- Witness for C8 at envBase with the receipt poll timing out. -/
theorem c8_confirmation_nonfatal_witness :
    (run envBase).1 = .ok "0xhash"
    ∧ (run { envBase with receipt := .error .timeoutExpired }).1 = .ok "0xhash" :=
  c8_confirmation_nonfatal envBase "0xhash" (.error .timeoutExpired) rfl

/-- C9: the nonce is read only through the pending view (two environments
agreeing on the pending column of the transaction-count oracle give the
identical nonce fetch), a fresh successful read puts exactly the fetched
value into the built transaction, and exhaustion of the three nonce
attempts is fatal for the build, which fails with the retry error naming
"Get nonce". -/
theorem c9_nonce_fresh_pending (envA envB envC envD : Env) (n cid cid2 v : Int)
    (gp : GasParams)
    (hAB : ∀ i, envA.txCount View.pending i = envB.txCount View.pending i)
    (hC1 : envC.txCount View.pending 1 = .ok n)
    (hCc : envC.chainId = .ok cid)
    (hD : ∀ i, 1 ≤ i → i ≤ RETRY_ATTEMPTS → ∃ e, envD.txCount View.pending i = .error e)
    (hDc : envD.chainId = .ok cid2) :
    get_nonce envA = get_nonce envB
    ∧ (get_nonce envC).1 = .ok n
    ∧ (get_nonce envC).2.nonceReads = 1
    ∧ (build_transaction envC v gp).1 =
        .ok { chainId := cid, nonce := n, toAddr := envC.toAddr, value := v,
              gas := (estimate_gas envC).1, gasPrice := gp.gasPrice,
              maxFeePerGas := gp.maxFeePerGas,
              maxPriorityFeePerGas := gp.maxPriorityFeePerGas }
    ∧ (get_nonce envD).1 = .error (.runtimeError (retryMsg "Get nonce"))
    ∧ (build_transaction envD v gp).1 = .error (.runtimeError (retryMsg "Get nonce")) := by
  have hl : List.range' 1 RETRY_ATTEMPTS = [1, 2, 3] := rfl
  obtain ⟨e1, hd1⟩ := hD 1 (by omega) (by decide)
  obtain ⟨e2, hd2⟩ := hD 2 (by omega) (by decide)
  obtain ⟨e3, hd3⟩ := hD 3 (by omega) (by decide)
  have hCeq : get_nonce envC = (.ok n, tNonce) := by
    simp only [get_nonce, retryRun]
    rw [hl]
    simp only [retryGo, hC1]
  have hDeq : get_nonce envD =
      (.error (.runtimeError (retryMsg "Get nonce")),
       (tNonce.add warnSleepTrace).add
         ((tNonce.add warnSleepTrace).add (tNonce.add warnTrace))) := by
    simp only [get_nonce, retryRun]
    rw [hl]
    simp only [retryGo, hd1, hd2, hd3]
  refine ⟨?_, ?_, ?_, ?_, ?_, ?_⟩
  · have hfun : (fun i => (envA.txCount View.pending i, tNonce))
        = (fun i => (envB.txCount View.pending i, tNonce)) :=
      funext fun i => by rw [hAB i]
    simp only [get_nonce]
    rw [hfun]
  · rw [hCeq]
  · rw [hCeq]
    rfl
  · simp only [build_transaction, hCc, hCeq]
  · rw [hDeq]
  · simp only [build_transaction, hDc, hDeq]

/-- Witness for C9: envBase against an oracle that only answers the
pending view, plus an environment whose nonce read always fails. -/
theorem c9_nonce_fresh_pending_witness :
    get_nonce envBase = get_nonce envViewSensitive
    ∧ (get_nonce envBase).1 = .ok 9
    ∧ (get_nonce envBase).2.nonceReads = 1
    ∧ (build_transaction envBase 123 gpW).1 =
        .ok { chainId := 1, nonce := 9, toAddr := envBase.toAddr, value := 123,
              gas := (estimate_gas envBase).1, gasPrice := gpW.gasPrice,
              maxFeePerGas := gpW.maxFeePerGas,
              maxPriorityFeePerGas := gpW.maxPriorityFeePerGas }
    ∧ (get_nonce envNonceDown).1 = .error (.runtimeError (retryMsg "Get nonce"))
    ∧ (build_transaction envNonceDown 123 gpW).1 =
        .error (.runtimeError (retryMsg "Get nonce")) :=
  c9_nonce_fresh_pending envBase envViewSensitive envBase envNonceDown 9 1 1 123 gpW
    (fun _ => rfl) rfl rfl
    (fun _ _ _ => ⟨.rpc "nonce service down", rfl⟩) rfl

/-- C10: estimate_max_cost chooses the fee price by truthiness: a record
with maxFeePerGas 0 and gasPrice p yields gasLimit * p + value, a record
with neither fee field or with both zero yields the value alone, a nonzero
maxFeePerGas m wins over any gasPrice, and with maxFeePerGas absent a
gasPrice p yields gasLimit * p + value. -/
theorem c10_estimate_max_cost_truthiness
    (cid nce gas value p m : Int) (a : String) (q mp : Option Int)
    (hm : m ≠ 0) :
    estimate_max_cost
        { chainId := cid, nonce := nce, toAddr := a, value := value, gas := gas,
          gasPrice := some p, maxFeePerGas := some 0, maxPriorityFeePerGas := mp }
      = gas * p + value
    ∧ estimate_max_cost
        { chainId := cid, nonce := nce, toAddr := a, value := value, gas := gas,
          gasPrice := none, maxFeePerGas := none, maxPriorityFeePerGas := mp }
      = value
    ∧ estimate_max_cost
        { chainId := cid, nonce := nce, toAddr := a, value := value, gas := gas,
          gasPrice := some 0, maxFeePerGas := some 0, maxPriorityFeePerGas := mp }
      = value
    ∧ estimate_max_cost
        { chainId := cid, nonce := nce, toAddr := a, value := value, gas := gas,
          gasPrice := q, maxFeePerGas := some m, maxPriorityFeePerGas := mp }
      = gas * m + value
    ∧ estimate_max_cost
        { chainId := cid, nonce := nce, toAddr := a, value := value, gas := gas,
          gasPrice := some p, maxFeePerGas := none, maxPriorityFeePerGas := mp }
      = gas * p + value := by
  refine ⟨?_, ?_, ?_, ?_, ?_⟩
  · by_cases hp : p = 0
    · subst hp
      simp [estimate_max_cost, pyOr]
    · simp [estimate_max_cost, pyOr, hp]
  · simp [estimate_max_cost, pyOr]
  · simp [estimate_max_cost, pyOr]
  · simp [estimate_max_cost, pyOr, hm]
  · by_cases hp : p = 0
    · subst hp
      simp [estimate_max_cost, pyOr]
    · simp [estimate_max_cost, pyOr, hp]

/-- Witness for C10 at concrete records with gas 21000 and value 7. -/
theorem c10_estimate_max_cost_truthiness_witness :
    estimate_max_cost
        { chainId := 1, nonce := 0, toAddr := "0xRecipient", value := 7, gas := 21000,
          gasPrice := some 5, maxFeePerGas := some 0, maxPriorityFeePerGas := none }
      = 21000 * 5 + 7
    ∧ estimate_max_cost
        { chainId := 1, nonce := 0, toAddr := "0xRecipient", value := 7, gas := 21000,
          gasPrice := none, maxFeePerGas := none, maxPriorityFeePerGas := none }
      = 7
    ∧ estimate_max_cost
        { chainId := 1, nonce := 0, toAddr := "0xRecipient", value := 7, gas := 21000,
          gasPrice := some 0, maxFeePerGas := some 0, maxPriorityFeePerGas := none }
      = 7
    ∧ estimate_max_cost
        { chainId := 1, nonce := 0, toAddr := "0xRecipient", value := 7, gas := 21000,
          gasPrice := some 4, maxFeePerGas := some 3, maxPriorityFeePerGas := none }
      = 21000 * 3 + 7
    ∧ estimate_max_cost
        { chainId := 1, nonce := 0, toAddr := "0xRecipient", value := 7, gas := 21000,
          gasPrice := some 5, maxFeePerGas := none, maxPriorityFeePerGas := none }
      = 21000 * 5 + 7 :=
  c10_estimate_max_cost_truthiness 1 0 21000 7 5 3 "0xRecipient" (some 4) none (by decide)

end SendEth
